import Mathlib

/-!
Verification development for the real-time capture-and-render pipeline of the
camera application (`src/js/util.js`, `src/js/views/camera.js`).

The JavaScript source is shallowly embedded: pure computations become Lean
functions, the per-animation-frame handler becomes an explicit state-passing
step function, timestamps (JS `performance.now()` / `video.currentTime`
doubles) are modelled as rationals, and DOM visibility flags become booleans.
-/

namespace Camera

/-! ## PerformanceMonitor (`src/js/util.js`, lines 1126–1215)

`camera.util.PerformanceMonitor` stores probes as `(timestamp, duration)`
pairs, plus a `tailStartTime_` initialised to the creation/reset time.
-/

structure PerfMonitor where
  probes : List (ℚ × ℚ)
  tailStartTime : ℚ
deriving DecidableEq

/-- `camera.util.PerformanceMonitor.HISTORY_LENGTH = 3 * 1000`. -/
def HISTORY_LENGTH : ℚ := 3 * 1000

/-- `PerformanceMonitor.reset`: clears probes and restarts the tail clock. -/
def PerfMonitor.reset (now : ℚ) : PerfMonitor :=
  { probes := [], tailStartTime := now }

/-- The `fps` getter:
`tailStartTime_ ? probes_.length / (performance.now() - tailStartTime_) * 1000 : 0`.
JS number truthiness: `0` is falsy, so a zero tail-start yields `0`. -/
def PerfMonitor.fps (m : PerfMonitor) (now : ℚ) : ℚ :=
  if m.tailStartTime = 0 then 0
  else (m.probes.length : ℚ) / (now - m.tailStartTime) * 1000

/-- The `average` getter: mean duration of the stored probes, `0` when empty. -/
def PerfMonitor.average (m : PerfMonitor) : ℚ :=
  if m.probes.length = 0 then 0
  else (m.probes.map Prod.snd).sum / (m.probes.length : ℚ)

/-- `PerformanceMonitor.prototype.finishMeasuring_(startTime)`:
pushes `[now, now - startTime]`, then advances an index `i` over the front of
the array while `probes_[i][0] < now - HISTORY_LENGTH`; if `i > 0` it sets
`tailStartTime_ = probes_[i][0]` (the first retained probe, read before the
splice) and splices the first `i` probes away. -/
def PerfMonitor.finishMeasuring (m : PerfMonitor) (startTime now : ℚ) :
    PerfMonitor :=
  let probes1 := m.probes ++ [(now, now - startTime)]
  let threshold := now - HISTORY_LENGTH
  let i := (probes1.takeWhile (fun p => decide (p.1 < threshold))).length
  if 0 < i then
    { probes := probes1.drop i,
      tailStartTime := (probes1.getD i (0, 0)).1 }
  else
    { probes := probes1, tailStartTime := m.tailStartTime }

/-- The spec's §8 formula for `fps`, written from the spec's words for
comparison with the source's `PerfMonitor.fps`: "sample count divided by
(latest sample time − oldest retained sample time)" (scaled to per-second,
as the source reports per-second figures). -/
def fpsSpecFormula (m : PerfMonitor) : ℚ :=
  (m.probes.length : ℚ) /
    ((m.probes.getLastD (0, 0)).1 - (m.probes.headD (0, 0)).1) * 1000

/-! ## Camera view (`src/js/views/camera.js`)

The per-animation-frame handler `onAnimationFrame_` is embedded as a step
function over an explicit state. Quantities the source only ever compares for
identity or ordering (video `currentTime`, client rects, `offsetWidth`) are
modelled as integers; quantities the source divides (video dimensions) stay
rational.
-/

/-- `camera.views.Camera.DrawMode` (FAST = 0, NORMAL = 1, BEST = 2). -/
inductive DrawMode where
  | FAST
  | NORMAL
  | BEST
deriving DecidableEq, Repr

/-- `camera.views.Camera.HeadTrackerQuality` (LOW = 0, NORMAL = 1). -/
inductive HeadTrackerQuality where
  | LOW
  | NORMAL
deriving DecidableEq, Repr

/-- `camera.views.Camera.PREVIEW_BUFFER_SKIP_FRAMES = 3`. -/
def PREVIEW_BUFFER_SKIP_FRAMES : ℕ := 3

/-- `camera.views.Camera.RIBBON_HEAD_TRACKER_SKIP_FRAMES = 30`. -/
def RIBBON_HEAD_TRACKER_SKIP_FRAMES : ℕ := 30

/-- The capability flags of `mainProcessor_.effect` (duck-typed
`usesHeadTracker()` / `isMultiframe()` / `isSlow()` methods in the source). -/
structure Effect where
  usesHeadTracker : Bool
  isMultiframe : Bool
  isSlow : Bool
deriving DecidableEq, Repr

/-- JavaScript `Math.round`: `⌊x + 1/2⌋` (round half toward +∞). -/
def jsRound (x : ℚ) : ℤ := ⌊x + 1 / 2⌋

/-- `setHeadTrackerQuality_(quality)`: resizes `trackerInputCanvas_`.
`scale` is 1 for NORMAL and 0.75 for LOW; narrow video (`videoRatio < 1.5`,
i.e. 800×600) uses base 120×90, wide uses 160×90, each `Math.round`ed after
scaling. Returns the `(width, height)` assigned to the canvas. -/
def setHeadTrackerQuality (videoW videoH : ℚ) (quality : HeadTrackerQuality) :
    ℤ × ℤ :=
  let scale : ℚ :=
    match quality with
    | .NORMAL => 1
    | .LOW => 3 / 4
  if videoW / videoH < 3 / 2 then
    (jsRound (120 * scale), jsRound (90 * scale))
  else
    (jsRound (160 * scale), jsRound (90 * scale))

/-- Visibility flags of the three main output surfaces; the source mutates
`<element>.parentNode.hidden`, so `true` means hidden. -/
structure Surfaces where
  mainHidden : Bool
  previewHidden : Bool
  fastHidden : Bool
deriving DecidableEq, Repr

/-- What one `drawCameraFrame_(mode)` call did: the resulting visibility
flags, and which processors had their textures refreshed and were run. -/
structure DrawResult where
  surfaces : Surfaces
  fastRefreshed : Bool
  previewRefreshed : Bool
  mainRefreshed : Bool
deriving DecidableEq, Repr

/-- `drawCameraFrame_(mode)` (camera.js lines 1793–1840). The fast-path block
runs first for every mode: it reloads `mainFastCanvasTexture_` and re-runs
`mainFastProcessor_` when `frame_ % 10 == 0 || mode == FAST`. The switch then
refreshes the mode's own surface (NORMAL: preview, BEST: main) and makes
exactly that surface visible. The previous visibility flags are overwritten
in every branch, which is why the input `Surfaces` value is unused. -/
def drawCameraFrame (frame : ℕ) (mode : DrawMode) (_s : Surfaces) :
    DrawResult :=
  let fastRefreshed := frame % 10 == 0 || mode == DrawMode.FAST
  match mode with
  | .FAST =>
    { surfaces := ⟨true, true, false⟩, fastRefreshed := fastRefreshed,
      previewRefreshed := false, mainRefreshed := false }
  | .NORMAL =>
    { surfaces := ⟨true, false, true⟩, fastRefreshed := fastRefreshed,
      previewRefreshed := true, mainRefreshed := false }
  | .BEST =>
    { surfaces := ⟨false, true, true⟩, fastRefreshed := fastRefreshed,
      previewRefreshed := false, mainRefreshed := true }

/-- The on-screen visibility test of one ribbon processor's output canvas
(camera.js lines 1772–1774): `effectRect.right >= 0 && effectRect.left <
document.body.offsetWidth`. A rect is `(left, right)`. -/
def visibleRect (r : ℤ × ℤ) (bodyWidth : ℤ) : Bool :=
  decide (0 ≤ r.2) && decide (r.1 < bodyWidth)

/-- `drawEffectsRibbon_(mode)` (camera.js lines 1765–1786). Processors are
identified by their position in `effectProcessors_`. In NORMAL mode every
visible processor is drawn; all others are collected into `notDrawn`. Then
`staleEffectsRefreshIndex_` is incremented and, when `notDrawn` is nonempty,
`notDrawn[staleEffectsRefreshIndex_ % notDrawn.length]` is drawn as well.
Returns (new index, positions drawn as visible, extra position drawn). -/
def drawEffectsRibbon (mode : DrawMode) (rects : List (ℤ × ℤ))
    (bodyWidth : ℤ) (staleIdx : ℕ) : ℕ × List ℕ × Option ℕ :=
  let withIdx := rects.enum
  let drawnVisible := withIdx.filter
    (fun q => mode == DrawMode.NORMAL && visibleRect q.2 bodyWidth)
  let notDrawn := withIdx.filter
    (fun q => !(mode == DrawMode.NORMAL && visibleRect q.2 bodyWidth))
  let idx := staleIdx + 1
  (idx, drawnVisible.map Prod.fst,
    (notDrawn.map Prod.fst).get? (idx % notDrawn.length))

/-- Mutable view state threaded through `onAnimationFrame_` iterations.
`frame` is `frame_` (0 at construction, line 213), `lastFrameTime` is
`lastFrameTime_` (-1 at construction, line 46), `staleIdx` is
`staleEffectsRefreshIndex_`, `trackerDims` are the `trackerInputCanvas_`
dimensions, and the counters accumulate how often each externally visible
action ran (detector `detect()` calls, detector `update()` calls, fast-path
texture loads, preview back-buffer loads). -/
structure CamState where
  frame : ℕ
  lastFrameTime : ℤ
  staleIdx : ℕ
  surfaces : Surfaces
  trackerDims : ℤ × ℤ
  detectCount : ℕ
  updateCount : ℕ
  fastLoads : ℕ
  previewBufLoads : ℕ
deriving DecidableEq, Repr

/-- Per-iteration external inputs read by `onAnimationFrame_`: view/UI flags,
the current effect's capability flags, the detector's `busy` flag, the video
state and the ribbon canvases' client rects. -/
structure FrameEnv where
  active : Bool
  resizing : Bool
  videoCurrentTime : ℤ
  effect : Effect
  trackerBusy : Bool
  taking : Bool
  toolbarAnimating : Bool
  controlsAnimating : Bool
  uiAnimating : Bool
  toastAnimating : Bool
  scrolling : Bool
  expanded : Bool
  ribbonInitialization : Bool
  videoW : ℚ
  videoH : ℚ
  rects : List (ℤ × ℤ)
  bodyWidth : ℤ
deriving Repr

/-- The draw-mode decision (camera.js lines 1960–1970), evaluated fresh each
frame from the current flags. -/
def selectDrawMode (env : FrameEnv) : DrawMode :=
  if env.effect.isMultiframe then
    DrawMode.BEST
  else if env.taking || env.toolbarAnimating || env.controlsAnimating ||
      env.effect.isSlow || env.uiAnimating || env.toastAnimating ||
      (env.scrolling && env.expanded) then
    DrawMode.FAST
  else
    DrawMode.NORMAL

/-- Observable record of one `onAnimationFrame_` invocation. `observedFrame`
is the value of `frame_` while the iteration's cadence tests (`% 3`, `% 30`,
`% 10`) and draw phases run, i.e. after the first increment and before the
second. -/
structure FrameObs where
  processed : Bool
  observedFrame : ℕ
  previewBufLoaded : Bool
  detectIssued : Bool
  updated : Bool
  mode : DrawMode
  fastRefreshed : Bool
  ribbonDrawn : Bool
  ribbonMode : DrawMode
  ribbonExtra : Option ℕ
deriving DecidableEq, Repr

/-- The observation of a skipped iteration (inactive view, mid-resize, or no
new source frame): nothing runs. -/
def skipObs : FrameObs :=
  { processed := false, observedFrame := 0, previewBufLoaded := false,
    detectIssued := false, updated := false, mode := DrawMode.NORMAL,
    fastRefreshed := false, ribbonDrawn := false,
    ribbonMode := DrawMode.NORMAL, ribbonExtra := none }

/-- `onAnimationFrame_` (camera.js lines 1861–2000) as a state transformer.
Guards: inactive view, mid-resize, or unchanged `video_.currentTime` skip the
iteration. Otherwise: `frame_++`; load the effects' preview back buffer on the
`% PREVIEW_BUFFER_SKIP_FRAMES` cadence; request a head-tracker detection when
the current effect uses it or (ribbon expanded and
`% RIBBON_HEAD_TRACKER_SKIP_FRAMES` cadence), gated on `!tracker_.busy`, with
NORMAL tracker quality for a direct consumer and LOW otherwise;
unconditionally `tracker_.update()`; draw the main frame in the selected
mode; draw the ribbon unless a UI transition/animation/scroll is running
(overridden during ribbon initialization), in NORMAL ribbon mode when
expanded and on the `% PREVIEW_BUFFER_SKIP_FRAMES` cadence, else FAST;
finally `frame_++` again and record `lastFrameTime_`. -/
def onAnimationFrame (env : FrameEnv) (s : CamState) : CamState × FrameObs :=
  if !env.active || env.resizing ||
      decide (s.lastFrameTime = env.videoCurrentTime) then
    (s, skipObs)
  else
    let f1 := s.frame + 1
    let previewBufLoaded := f1 % PREVIEW_BUFFER_SKIP_FRAMES == 0
    let requestHeadTrackerUpdate := env.effect.usesHeadTracker ||
      (env.expanded && f1 % RIBBON_HEAD_TRACKER_SKIP_FRAMES == 0)
    let detectIssued := !env.trackerBusy && requestHeadTrackerUpdate
    let trackerDims :=
      if detectIssued then
        setHeadTrackerQuality env.videoW env.videoH
          (if env.effect.usesHeadTracker then HeadTrackerQuality.NORMAL
           else HeadTrackerQuality.LOW)
      else s.trackerDims
    let mode := selectDrawMode env
    let dr := drawCameraFrame f1 mode s.surfaces
    let ribbonDrawn := (!env.taking && !env.controlsAnimating &&
      !env.uiAnimating && !env.scrolling && !env.toolbarAnimating &&
      !env.toastAnimating) || env.ribbonInitialization
    let ribbonMode :=
      if env.expanded && f1 % PREVIEW_BUFFER_SKIP_FRAMES == 0 then
        DrawMode.NORMAL
      else DrawMode.FAST
    let ribbonResult :=
      if ribbonDrawn then
        let r := drawEffectsRibbon ribbonMode env.rects env.bodyWidth
          s.staleIdx
        (r.1, r.2.2)
      else (s.staleIdx, none)
    ({ frame := f1 + 1,
       lastFrameTime := env.videoCurrentTime,
       staleIdx := ribbonResult.1,
       surfaces := dr.surfaces,
       trackerDims := trackerDims,
       detectCount := s.detectCount + (if detectIssued then 1 else 0),
       updateCount := s.updateCount + 1,
       fastLoads := s.fastLoads + (if dr.fastRefreshed then 1 else 0),
       previewBufLoads :=
         s.previewBufLoads + (if previewBufLoaded then 1 else 0) },
     { processed := true, observedFrame := f1,
       previewBufLoaded := previewBufLoaded, detectIssued := detectIssued,
       updated := true, mode := mode, fastRefreshed := dr.fastRefreshed,
       ribbonDrawn := ribbonDrawn, ribbonMode := ribbonMode,
       ribbonExtra := ribbonResult.2 })

/-- Iterating `onAnimationFrame_` over a sequence of per-refresh inputs. -/
def runLoop : CamState → List FrameEnv → CamState × List FrameObs
  | s, [] => (s, [])
  | s, e :: es =>
    let r := onAnimationFrame e s
    let rest := runLoop r.1 es
    (rest.1, r.2 :: rest.2)

/-- A freshly constructed camera view: `frame_ = 0`, `lastFrameTime_ = -1`,
`staleEffectsRefreshIndex_ = 0` (camera.js lines 46, 213, 418); surfaces and
canvas dimensions start unset (all-hidden / zero here), counters at zero. -/
def initCamState : CamState :=
  { frame := 0, lastFrameTime := -1, staleIdx := 0,
    surfaces := ⟨true, true, true⟩, trackerDims := (0, 0), detectCount := 0,
    updateCount := 0, fastLoads := 0, previewBufLoads := 0 }

/-! ## Capture negotiation (`start_`, camera.js lines 1688–1758) -/

/-- `camera.views.Camera.RESOLUTIONS` (lines 1546–1547). -/
def RESOLUTIONS : List (ℕ × ℕ) :=
  [(1920, 1080), (1280, 720), (800, 600), (640, 480)]

/-- The `tryNextResolution` recursion of `start_`: try the head of the list
via `startWithResolution_`; on success stop; on failure advance (`index++`)
and, while `index < RESOLUTIONS.length`, try again. Returns the resolutions
attempted, in order, and whether one succeeded. `ok` is the environment's
answer for each probed resolution. -/
def tryResolutions (ok : ℕ × ℕ → Bool) : List (ℕ × ℕ) →
    List (ℕ × ℕ) × Bool
  | [] => ([], false)
  | r :: rest =>
    if ok r then ([r], true)
    else
      let next := tryResolutions ok rest
      (r :: next.1, next.2)

/-- Outcome of one `start_` negotiation attempt: the resolutions probed, how
many times the `'no-camera'` error was reported (`onFailure` →
`context_.onError`), and the retry-timer slot afterwards (`some delay` when a
`setTimeout(start_, delay)` is pending). -/
structure StartOutcome where
  tried : List (ℕ × ℕ)
  noCameraReports : ℕ
  retryTimer : Option ℕ
deriving DecidableEq, Repr

/-- `start_` (camera.js lines 1688–1758) for one negotiation attempt, with
the `locked_` flag held fixed during the attempt. `scheduleRetry` clears any
pending `retryStartTimer_` and arms a fresh 1000 ms one — a single-slot
timer, so the prior slot contents (`pendingRetry`) never survive. When the
ladder is exhausted, `onFailure` reports the `'no-camera'` error once and
calls `scheduleRetry`; on success `onSuccess` clears the pending timer. -/
def start (ok : ℕ × ℕ → Bool) (locked : Bool) (_pendingRetry : Option ℕ) :
    StartOutcome :=
  if locked then { tried := [], noCameraReports := 0, retryTimer := some 1000 }
  else
    let result := tryResolutions ok RESOLUTIONS
    if result.2 then
      { tried := result.1, noCameraReports := 0, retryTimer := none }
    else
      { tried := result.1, noCameraReports := 1, retryTimer := some 1000 }

/-- The not-visible processor set tested by `drawEffectsRibbon_` in NORMAL
mode: positions whose output canvas fails the on-screen bounds test. -/
def notVisible (rects : List (ℤ × ℤ)) (bodyWidth : ℤ) : List ℕ :=
  (rects.enum.filter (fun q => !visibleRect q.2 bodyWidth)).map Prod.fst

/-- The extra off-screen refresh chosen on each of `n` consecutive
`drawEffectsRibbon_(NORMAL)` invocations, threading
`staleEffectsRefreshIndex_` (starting at `staleIdx`) through the calls. -/
def ribbonSelections (rects : List (ℤ × ℤ)) (bodyWidth : ℤ) :
    ℕ → ℕ → List (Option ℕ)
  | _, 0 => []
  | staleIdx, n + 1 =>
    let r := drawEffectsRibbon DrawMode.NORMAL rects bodyWidth staleIdx
    r.2.2 :: ribbonSelections rects bodyWidth r.1 n

/-! Concrete inputs used by witnesses. -/

/-- A frame input with the spec's §8 scenario flags: a multiframe effect
while a pointer scroll is in progress with the ribbon expanded. -/
def scrollingMultiframeEnv : FrameEnv :=
  { active := true, resizing := false, videoCurrentTime := 1,
    effect := ⟨false, true, false⟩, trackerBusy := false, taking := false,
    toolbarAnimating := false, controlsAnimating := false,
    uiAnimating := false, toastAnimating := false, scrolling := true,
    expanded := true, ribbonInitialization := false, videoW := 1280,
    videoH := 720, rects := [], bodyWidth := 100 }

/-- A frame input whose detector is busy while the current effect wants the
head tracker on every frame. -/
def busyTrackerEnv : FrameEnv :=
  { active := true, resizing := false, videoCurrentTime := 1,
    effect := ⟨true, false, false⟩, trackerBusy := true, taking := false,
    toolbarAnimating := false, controlsAnimating := false,
    uiAnimating := false, toastAnimating := false, scrolling := false,
    expanded := false, ribbonInitialization := false, videoW := 1280,
    videoH := 720, rects := [], bodyWidth := 100 }

/-- A steady-state frame input: nothing animating, ribbon collapsed, a plain
effect — the selector picks NORMAL every frame. `t` is the video timestamp,
advanced so each invocation sees a fresh source frame. -/
def steadyNormalEnv (t : ℤ) : FrameEnv :=
  { active := true, resizing := false, videoCurrentTime := t,
    effect := ⟨false, false, false⟩, trackerBusy := false, taking := false,
    toolbarAnimating := false, controlsAnimating := false,
    uiAnimating := false, toastAnimating := false, scrolling := false,
    expanded := false, ribbonInitialization := false, videoW := 4,
    videoH := 3, rects := [], bodyWidth := 100 }

/-- Like `steadyNormalEnv` but with the ribbon expanded and an effect that
does not use the head tracker, and an idle detector — the configuration the
30-frame ribbon head-tracker cadence is meant to serve. -/
def expandedRibbonEnv (t : ℤ) : FrameEnv :=
  { active := true, resizing := false, videoCurrentTime := t,
    effect := ⟨false, false, false⟩, trackerBusy := false, taking := false,
    toolbarAnimating := false, controlsAnimating := false,
    uiAnimating := false, toastAnimating := false, scrolling := false,
    expanded := true, ribbonInitialization := false, videoW := 4,
    videoH := 3, rects := [], bodyWidth := 100 }

/-- A state whose frame counter is about to make the observed (odd) counter
hit 30, together with `expandedRibbonEnv`: the only way a ribbon-only
detection could be requested. -/
def aboutToHit30 : CamState :=
  { initCamState with frame := 29 }

/-! ## Theorems -/

/-! Helper lemmas about the pruning step. -/

theorem drop_length_takeWhile_eq_dropWhile (p : α → Bool) (l : List α) :
    l.drop (l.takeWhile p).length = l.dropWhile p := by
  induction l with
  | nil => rfl
  | cons a l ih =>
    by_cases h : p a
    · simp [List.takeWhile_cons, List.dropWhile_cons, h, ih]
    · simp [List.takeWhile_cons, List.dropWhile_cons, h]

theorem head?_drop_eq_get? (l : List α) (n : ℕ) : (l.drop n).head? = l.get? n := by
  induction l generalizing n with
  | nil => cases n <;> rfl
  | cons a l ih => cases n with
    | zero => rfl
    | succ n => simp [ih n]

theorem dropWhile_eq_self_of_takeWhile_eq_nil (p : α → Bool) (l : List α)
    (h : l.takeWhile p = []) : l.dropWhile p = l := by
  cases l with
  | nil => rfl
  | cons a l =>
    rw [List.takeWhile_cons] at h
    rw [List.dropWhile_cons]
    by_cases hp : p a
    · simp [hp] at h
    · simp [hp]

/-- The retained probes after `finishMeasuring_` are exactly the input probes
(with the fresh one appended) minus the maximal front run of stale ones. -/
theorem finishMeasuring_probes (m : PerfMonitor) (s now : ℚ) :
    (m.finishMeasuring s now).probes =
      (m.probes ++ [(now, now - s)]).dropWhile
        (fun q => decide (q.1 < now - HISTORY_LENGTH)) := by
  simp only [PerfMonitor.finishMeasuring]
  split
  · exact drop_length_takeWhile_eq_dropWhile _ _
  · rename_i h
    have h0 : ((m.probes ++ [(now, now - s)]).takeWhile
        (fun q => decide (q.1 < now - HISTORY_LENGTH))) = [] := by
      have := Nat.eq_zero_of_not_pos h
      exact List.length_eq_zero.mp this
    exact (dropWhile_eq_self_of_takeWhile_eq_nil _ _ h0).symm

/-- When `finishMeasuring_` discards at least one probe, the new
`tailStartTime_` is the timestamp of the oldest retained probe. -/
theorem finishMeasuring_tailStart (m : PerfMonitor) (s now : ℚ)
    (h : 0 < ((m.probes ++ [(now, now - s)]).takeWhile
      (fun q => decide (q.1 < now - HISTORY_LENGTH))).length) :
    (m.finishMeasuring s now).tailStartTime =
      (((m.finishMeasuring s now).probes).headD (0, 0)).1 := by
  rw [finishMeasuring_probes]
  unfold PerfMonitor.finishMeasuring
  rw [if_pos h]
  rw [← drop_length_takeWhile_eq_dropWhile]
  rw [List.headD_eq_head?, head?_drop_eq_get?, List.getD_eq_getD_get?]

/-- C2 counterexample: a monitor reset at time 1, with samples completing at
times 100 and 200 (neither pruned), queried at time 200 (the latest sample's
own timestamp). The code divides by `now - tailStartTime_` where
`tailStartTime_` is still the reset time 1, giving 2000/199 fps; the claimed
formula (count over latest − oldest retained) gives 20 fps. -/
theorem fps_window_counterexample :
    PerfMonitor.fps
        (((PerfMonitor.reset 1).finishMeasuring 100 100).finishMeasuring
          200 200) 200 ≠
      fpsSpecFormula
        (((PerfMonitor.reset 1).finishMeasuring 100 100).finishMeasuring
          200 200) := by
  have h1 : (PerfMonitor.reset 1).finishMeasuring 100 100 =
      ⟨[(100, 0)], 1⟩ := by
    norm_num [PerfMonitor.reset, PerfMonitor.finishMeasuring, HISTORY_LENGTH]
  have h2 : (⟨[(100, 0)], 1⟩ : PerfMonitor).finishMeasuring 200 200 =
      ⟨[(100, 0), (200, 0)], 1⟩ := by
    norm_num [PerfMonitor.finishMeasuring, HISTORY_LENGTH]
  rw [h1, h2]
  norm_num [PerfMonitor.fps, fpsSpecFormula]

/-- C2 (amended): on each new sample, pruning drops exactly the maximal front
run of samples older than `now - HISTORY_LENGTH`; when at least one sample is
discarded the window start (`tailStartTime_`) becomes the oldest retained
sample's timestamp, and an `fps` query made exactly at the new sample's
timestamp equals the retained count divided by (latest sample time − oldest
retained sample time), times 1000. (At other query times `fps` divides by
query time − window start, and before any discarding prune the window start is
the reset time, not the oldest sample's timestamp — see the counterexample.) -/
theorem fps_window_spec (m : PerfMonitor) (s now : ℚ) (p : ℚ × ℚ)
    (ps : List (ℚ × ℚ)) (hm : m.probes = p :: ps)
    (hold : p.1 < now - HISTORY_LENGTH)
    (hpos : ∀ q ∈ m.probes, 0 < q.1) (hnow : 0 < now) :
    (m.finishMeasuring s now).probes =
        (m.probes ++ [(now, now - s)]).dropWhile
          (fun q => decide (q.1 < now - HISTORY_LENGTH)) ∧
      (m.finishMeasuring s now).tailStartTime =
        (((m.finishMeasuring s now).probes.headD (0, 0)).1) ∧
      (m.finishMeasuring s now).fps now =
        fpsSpecFormula (m.finishMeasuring s now) := by
  have hHL : (0 : ℚ) < HISTORY_LENGTH := by norm_num [HISTORY_LENGTH]
  have hpP : (fun q : ℚ × ℚ => decide (q.1 < now - HISTORY_LENGTH)) p =
      true := by simpa using hold
  have hlastP : (fun q : ℚ × ℚ => decide (q.1 < now - HISTORY_LENGTH))
      (now, now - s) = false := by
    simp only [decide_eq_false_iff_not, not_lt]
    linarith
  have hi : 0 < ((m.probes ++ [(now, now - s)]).takeWhile
      (fun q => decide (q.1 < now - HISTORY_LENGTH))).length := by
    rw [hm]
    simp [List.takeWhile_cons, hpP]
  have hmem : (now, now - s) ∈ m.probes ++ [(now, now - s)] := by simp
  have hne : ((m.probes ++ [(now, now - s)]).dropWhile
      (fun q => decide (q.1 < now - HISTORY_LENGTH))) ≠ [] := by
    intro hnil
    have := (List.dropWhile_eq_nil_iff.mp hnil) _ hmem
    simp only [decide_eq_true_eq] at this
    linarith
  refine ⟨finishMeasuring_probes m s now, finishMeasuring_tailStart m s now hi,
    ?_⟩
  set L := ((m.probes ++ [(now, now - s)]).dropWhile
      (fun q => decide (q.1 < now - HISTORY_LENGTH))) with hL
  have hprobes : (m.finishMeasuring s now).probes = L :=
    finishMeasuring_probes m s now
  have hhead : L.head hne ∈ m.probes ++ [(now, now - s)] :=
    (List.dropWhile_sublist _).mem (L.head_mem hne)
  have hheadpos : 0 < (L.headD (0, 0)).1 := by
    rw [List.headD_eq_head?, List.head?_eq_head hne]
    simp only [Option.getD_some]
    rcases List.mem_append.mp hhead with hin | hsing
    · exact hpos _ hin
    · rw [List.mem_singleton.mp hsing]
      exact hnow
  have hlast : L.getLast? = some (now, now - s) := by
    obtain ⟨t, ht⟩ := List.dropWhile_suffix
      (l := m.probes ++ [(now, now - s)])
      (fun q => decide (q.1 < now - HISTORY_LENGTH))
    have h1 : (t ++ L).getLast? = L.getLast? :=
      List.getLast?_append_of_ne_nil _ hne
    rw [← hL] at ht
    rw [ht] at h1
    rw [← h1, List.getLast?_concat]
  have htail : (m.finishMeasuring s now).tailStartTime = (L.headD (0, 0)).1 := by
    rw [finishMeasuring_tailStart m s now hi, hprobes]
  rw [PerfMonitor.fps, fpsSpecFormula, hprobes, htail]
  rw [if_neg (by exact ne_of_gt hheadpos)]
  rw [List.getLastD_eq_getLast?, hlast]
  rfl

/-- Witness for C2 (amended): a monitor holding samples at times 100 and 3200,
completing a new measurement spanning 3400→3500; the sample at time 100 is
discarded, and the `fps` read at time 3500 matches the spec's formula. -/
theorem fps_window_spec_witness :
    (100 : ℚ) < 3500 - HISTORY_LENGTH ∧
      (PerfMonitor.finishMeasuring ⟨[(100, 5), (3200, 10)], 1⟩ 3400 3500).fps
          3500 =
        fpsSpecFormula
          (PerfMonitor.finishMeasuring ⟨[(100, 5), (3200, 10)], 1⟩ 3400
            3500) :=
  ⟨by norm_num [HISTORY_LENGTH],
    (fps_window_spec ⟨[(100, 5), (3200, 10)], 1⟩ 3400 3500 (100, 5)
        [(3200, 10)] rfl (by norm_num [HISTORY_LENGTH])
        (by
          intro q hq
          simp only [List.mem_cons, List.not_mem_nil, or_false] at hq
          rcases hq with rfl | rfl <;> norm_num)
        (by norm_num)).2.2⟩

/-! ### C1: draw-mode selection -/

/-- C1: the per-frame draw mode is the pure function `selectDrawMode` of the
declared flags, with fixed priority: a multiframe effect forces BEST
regardless of every other flag (including an in-progress scroll); otherwise
any busy flag (taking a picture, toolbar / window-controls / toast
transition, slow effect, UI animation, scrolling while expanded) forces
FAST; otherwise NORMAL. Every processed frame draws in exactly this mode. -/
theorem drawMode_selection (env : FrameEnv) (s : CamState) :
    ((onAnimationFrame env s).2.processed = true →
      (onAnimationFrame env s).2.mode = selectDrawMode env) ∧
    (env.effect.isMultiframe = true → selectDrawMode env = DrawMode.BEST) ∧
    (env.effect.isMultiframe = false →
      (env.taking || env.toolbarAnimating || env.controlsAnimating ||
        env.effect.isSlow || env.uiAnimating || env.toastAnimating ||
        (env.scrolling && env.expanded)) = true →
      selectDrawMode env = DrawMode.FAST) ∧
    (env.effect.isMultiframe = false →
      (env.taking || env.toolbarAnimating || env.controlsAnimating ||
        env.effect.isSlow || env.uiAnimating || env.toastAnimating ||
        (env.scrolling && env.expanded)) = false →
      selectDrawMode env = DrawMode.NORMAL) := by
  refine ⟨?_, ?_, ?_, ?_⟩
  · unfold onAnimationFrame
    split
    · intro h
      simp [skipObs] at h
    · intro _
      rfl
  · intro h
    simp [selectDrawMode, h]
  · intro h hb
    simp [selectDrawMode, h, hb]
  · intro h hb
    simp [selectDrawMode, h, hb]

/-- Witness for C1, the spec's §8 scenario: `isMultiframe = true` while a
scroll is in progress with the ribbon expanded still selects BEST. -/
theorem drawMode_selection_witness :
    scrollingMultiframeEnv.effect.isMultiframe = true ∧
      selectDrawMode scrollingMultiframeEnv = DrawMode.BEST :=
  ⟨rfl, (drawMode_selection scrollingMultiframeEnv initCamState).2.1 rfl⟩

/-! ### C8: exactly one main output surface visible -/

/-- C8: after every completed `drawCameraFrame_`, exactly one of the three
main output surfaces (full-quality, preview, fast) is visible — the one
matching the draw mode — and the other two are hidden, whatever the
visibility flags were when the call began (so a mode switch within one draw
leaves a single visible surface by the time control returns). -/
theorem surfaces_exclusive (frame : ℕ) (mode : DrawMode) (s : Surfaces) :
    ((!(drawCameraFrame frame mode s).surfaces.mainHidden).toNat +
        (!(drawCameraFrame frame mode s).surfaces.previewHidden).toNat +
        (!(drawCameraFrame frame mode s).surfaces.fastHidden).toNat = 1) ∧
      (drawCameraFrame frame mode s).surfaces =
        (match mode with
         | DrawMode.FAST => ⟨true, true, false⟩
         | DrawMode.NORMAL => ⟨true, false, true⟩
         | DrawMode.BEST => ⟨false, true, true⟩) := by
  cases mode <;> simp [drawCameraFrame]

/-! ### C6: detector mutual exclusion and per-frame update -/

/-- C6: a detect request is issued only when the detector's `busy` flag is
false (checked immediately before the `detect()` call), while the detector's
synchronous `update()` interpolation step runs on every processed frame
whether or not a detect request was issued that frame. -/
theorem detector_busy_respected (env : FrameEnv) (s : CamState) :
    ((onAnimationFrame env s).2.detectIssued = true →
      env.trackerBusy = false) ∧
    ((onAnimationFrame env s).2.processed = true →
      (onAnimationFrame env s).1.updateCount = s.updateCount + 1 ∧
      (onAnimationFrame env s).2.updated = true) := by
  unfold onAnimationFrame
  split
  · constructor
    · intro h
      simp [skipObs] at h
    · intro h
      simp [skipObs] at h
  · constructor
    · intro h
      simp only [Bool.and_eq_true, Bool.not_eq_true'] at h
      exact h.1
    · intro _
      exact ⟨rfl, rfl⟩

/-- Witness for C6: a busy detector with an effect that wants the tracker on
every frame — the frame is processed, `update()` still runs, and no detect
request is issued. -/
theorem detector_busy_respected_witness :
    (onAnimationFrame busyTrackerEnv initCamState).2.processed = true ∧
      (onAnimationFrame busyTrackerEnv initCamState).1.updateCount =
        initCamState.updateCount + 1 ∧
      (onAnimationFrame busyTrackerEnv initCamState).2.detectIssued = false :=
  ⟨by decide,
    ((detector_busy_respected busyTrackerEnv initCamState).2 (by decide)).1,
    by decide⟩

/-! ### C10: the frame counter advances by two per processed frame -/

/-- One `onAnimationFrame_` invocation either skips (state unchanged) or
processes the frame: `frame_` is incremented once before the
downsample/detector/draw phases — so every in-iteration cadence test
observes `frame_ = old + 1` — and once more after the ribbon phase. -/
theorem onAnimationFrame_frame_step (env : FrameEnv) (s : CamState) :
    (onAnimationFrame env s = (s, skipObs) ∧
        (onAnimationFrame env s).2.processed = false) ∨
      ((onAnimationFrame env s).1.frame = s.frame + 2 ∧
        (onAnimationFrame env s).2.observedFrame = s.frame + 1 ∧
        (onAnimationFrame env s).2.processed = true) := by
  unfold onAnimationFrame
  split
  · left
    exact ⟨rfl, rfl⟩
  · right
    exact ⟨rfl, rfl, rfl⟩

/-- C10: starting from an even `frame_` (it is 0 at construction), every
iteration of the main loop that processes a new source frame increments the
frame counter exactly twice — so the counter advances by 2 per processed
frame, and the value observed by the in-iteration cadence tests (the `% 3`,
`% 10` and `% 30` checks) is always odd. -/
theorem frame_counter_parity (envs : List FrameEnv) (s : CamState)
    (h : s.frame % 2 = 0) :
    (runLoop s envs).1.frame =
        s.frame + 2 * ((runLoop s envs).2.countP (fun o => o.processed)) ∧
      ∀ o ∈ (runLoop s envs).2, o.processed = true →
        o.observedFrame % 2 = 1 := by
  induction envs generalizing s with
  | nil => simp [runLoop]
  | cons e es ih =>
    rcases onAnimationFrame_frame_step e s with ⟨heq, hproc⟩ |
        ⟨hf, hobs, hproc⟩
    · have hrest := ih s h
      simp only [runLoop, heq]
      constructor
      · rw [List.countP_cons]
        simp only [skipObs, decide_eq_true_eq]
        rw [hrest.1]
        ring_nf
        rfl
      · intro o ho
        rcases List.mem_cons.mp ho with rfl | ho
        · intro hko
          simp [skipObs] at hko
        · exact hrest.2 o ho
    · have h2 : (onAnimationFrame e s).1.frame % 2 = 0 := by omega
      have hrest := ih (onAnimationFrame e s).1 h2
      simp only [runLoop]
      constructor
      · rw [List.countP_cons, hrest.1, hf]
        simp only [hproc, decide_eq_true_eq, if_true]
        ring
      · intro o ho
        rcases List.mem_cons.mp ho with rfl | ho
        · intro _
          omega
        · exact hrest.2 o ho

/-- Witness for C10: three steady frames from a fresh view (frame counter 0);
the counter ends at 6 with all three frames processed and odd observations. -/
theorem frame_counter_parity_witness :
    initCamState.frame % 2 = 0 ∧
      (runLoop initCamState
            [steadyNormalEnv 1, steadyNormalEnv 2, steadyNormalEnv 3]).1.frame =
        initCamState.frame + 2 *
          ((runLoop initCamState
              [steadyNormalEnv 1, steadyNormalEnv 2,
                steadyNormalEnv 3]).2.countP (fun o => o.processed)) :=
  ⟨rfl,
    (frame_counter_parity
        [steadyNormalEnv 1, steadyNormalEnv 2, steadyNormalEnv 3]
        initCamState rfl).1⟩

/-! ### C4: the every-10th-frame fast-path refresh never fires -/

/-- C4 (failing run): ten consecutive processed frames from a fresh view,
every one drawn in NORMAL mode, and the fast-path source texture is never
reloaded — the `frame_ % 10 == 0` disjunct of `drawCameraFrame_` cannot fire
because `frame_` is always odd at the check (see `frame_counter_parity`), so
a run of non-FAST frames gets no fast-path refresh at all, not one per 10
frames. -/
theorem fastPath_tenth_frame_dead :
    ((runLoop initCamState
          ((List.range 10).map (fun i => steadyNormalEnv (i + 1)))).2.all
        (fun o => o.processed && decide (o.mode = DrawMode.NORMAL) &&
          !o.fastRefreshed)) = true ∧
      (runLoop initCamState
          ((List.range 10).map (fun i => steadyNormalEnv (i + 1)))).1.fastLoads
        = 0 := by
  decide

/-! ### C5: the 30-frame ribbon head-tracker cadence never fires -/

/-- C5 (failing run): thirty consecutive processed frames with the ribbon
expanded, an effect that does not use the head tracker, and an idle
detector — no detect request is ever issued, because
`frame_ % RIBBON_HEAD_TRACKER_SKIP_FRAMES == 0` compares an always-odd
counter against the even interval 30; the window-of-30 guarantee fails. -/
theorem ribbon_headTracker_cadence_dead :
    ((runLoop initCamState
          ((List.range 30).map (fun i => expandedRibbonEnv (i + 1)))).2.all
        (fun o => o.processed && !o.detectIssued)) = true ∧
      (runLoop initCamState
          ((List.range 30).map
            (fun i => expandedRibbonEnv (i + 1)))).1.detectCount = 0 := by
  decide

/-! ### C9: tracker-input downsample quality -/

/-- C9 counterexample: for a wide video (1280×720) the LOW-quality tracker
input canvas is 120×68 — the 160×90 NORMAL-quality canvas scaled by 0.75 and
rounded — not the half-linear-scale 80×45 the claim states. -/
theorem tracker_quality_counterexample :
    setHeadTrackerQuality 1280 720 HeadTrackerQuality.LOW = (120, 68) ∧
      setHeadTrackerQuality 1280 720 HeadTrackerQuality.LOW ≠
        (jsRound (1 / 2 * 160), jsRound (1 / 2 * 90)) := by
  constructor <;> norm_num [setHeadTrackerQuality, jsRound]

/-- C9 (amended): whenever a detect request is issued and the active effect
does not use the head tracker, the downsample fed to the detector uses the
LOW tracker quality, whose canvas dimensions are the NORMAL-quality
dimensions scaled by 0.75 (not 0.5), `Math.round`ed. -/
theorem tracker_quality_spec (env : FrameEnv) (s : CamState)
    (hd : (onAnimationFrame env s).2.detectIssued = true)
    (hu : env.effect.usesHeadTracker = false) :
    (onAnimationFrame env s).1.trackerDims =
        setHeadTrackerQuality env.videoW env.videoH HeadTrackerQuality.LOW ∧
      ∀ w h : ℚ,
        setHeadTrackerQuality w h HeadTrackerQuality.LOW =
          (jsRound (3 / 4 *
              ((setHeadTrackerQuality w h HeadTrackerQuality.NORMAL).1 : ℚ)),
            jsRound (3 / 4 *
              ((setHeadTrackerQuality w h HeadTrackerQuality.NORMAL).2 : ℚ)))
    := by
  constructor
  · by_cases hg : (!env.active || env.resizing ||
        decide (s.lastFrameTime = env.videoCurrentTime)) = true
    · exfalso
      unfold onAnimationFrame at hd
      rw [if_pos hg] at hd
      simp [skipObs] at hd
    · unfold onAnimationFrame at hd ⊢
      rw [if_neg hg] at hd ⊢
      dsimp only at hd ⊢
      rw [if_pos hd, hu]
      rfl
  · intro w h
    simp only [setHeadTrackerQuality, jsRound]
    by_cases hr : w / h < 3 / 2
    · simp only [if_pos hr]
      norm_num
    · simp only [if_neg hr]
      norm_num

/-- Witness for C9 (amended): ribbon expanded, idle detector, an effect not
using the tracker, and a state whose observed counter hits 30 — the detect
request is issued and the LOW-quality dimensions are used. -/
theorem tracker_quality_spec_witness :
    (onAnimationFrame (expandedRibbonEnv 1) aboutToHit30).2.detectIssued =
        true ∧
      (onAnimationFrame (expandedRibbonEnv 1) aboutToHit30).1.trackerDims =
        setHeadTrackerQuality (expandedRibbonEnv 1).videoW
          (expandedRibbonEnv 1).videoH HeadTrackerQuality.LOW :=
  ⟨by decide,
    (tracker_quality_spec (expandedRibbonEnv 1) aboutToHit30 (by decide)
        rfl).1⟩

/-! ### C3: resolution ladder and retry scheduling -/

/-- `tryNextResolution` probes the failing prefix of the ladder followed by
the first succeeding entry (if any), and succeeds iff some entry succeeds. -/
theorem tryResolutions_eq (ok : ℕ × ℕ → Bool) (l : List (ℕ × ℕ)) :
    tryResolutions ok l =
      (l.takeWhile (fun r => !ok r) ++
          (l.dropWhile (fun r => !ok r)).take 1,
        !(l.dropWhile (fun r => !ok r)).isEmpty) := by
  induction l with
  | nil => rfl
  | cons r rest ih =>
    by_cases h : ok r
    · simp [tryResolutions, h, List.takeWhile_cons, List.dropWhile_cons]
    · simp [tryResolutions, h, List.takeWhile_cons, List.dropWhile_cons, ih]

/-- C3: an unlocked negotiation attempt tries the ladder
[1920×1080, 1280×720, 800×600, 640×480] in order and stops at the first
success; when every rung fails it has tried exactly the four rungs, reports
the "no camera" failure exactly once, and leaves a single pending 1000 ms
retry regardless of any previously pending retry (single-slot timer); when
some rung succeeds, no failure is reported. -/
theorem negotiation_ladder (ok : ℕ × ℕ → Bool) (pending : Option ℕ) :
    ((start ok false pending).tried =
        RESOLUTIONS.takeWhile (fun r => !ok r) ++
          (RESOLUTIONS.dropWhile (fun r => !ok r)).take 1) ∧
      ((∀ r ∈ RESOLUTIONS, ok r = false) →
        (start ok false pending).tried = RESOLUTIONS ∧
          (start ok false pending).noCameraReports = 1 ∧
          (start ok false pending).retryTimer = some 1000) ∧
      ((∃ r ∈ RESOLUTIONS, ok r = true) →
        (start ok false pending).noCameraReports = 0) := by
  refine ⟨?_, ?_, ?_⟩
  · simp only [start, Bool.false_eq_true, if_false, tryResolutions_eq]
    split <;> rfl
  · intro hfail
    have h1 := hfail (1920, 1080) (by norm_num [RESOLUTIONS])
    have h2 := hfail (1280, 720) (by norm_num [RESOLUTIONS])
    have h3 := hfail (800, 600) (by norm_num [RESOLUTIONS])
    have h4 := hfail (640, 480) (by norm_num [RESOLUTIONS])
    simp [start, RESOLUTIONS, tryResolutions, h1, h2, h3, h4]
  · intro hsucc
    obtain ⟨r, hr, hok⟩ := hsucc
    have hne : (RESOLUTIONS.dropWhile (fun x => !ok x)) ≠ [] := by
      intro hnil
      have := List.dropWhile_eq_nil_iff.mp hnil r hr
      simp [hok] at this
    simp only [start, Bool.false_eq_true, if_false, tryResolutions_eq]
    simp [List.isEmpty_iff, hne]

/-- Witness for C3: a camera refusing every resolution — the whole ladder is
tried, the failure is reported once, and (replacing a pending 700 ms slot) a
single 1000 ms retry is left armed. -/
theorem negotiation_ladder_witness :
    (start (fun _ => false) false (some 700)).tried = RESOLUTIONS ∧
      (start (fun _ => false) false (some 700)).noCameraReports = 1 ∧
      (start (fun _ => false) false (some 700)).retryTimer = some 1000 :=
  (negotiation_ladder (fun _ => false) (some 700)).2.1 (by decide)

/-! ### C7: round-robin fairness of the off-screen ribbon refresh -/

/-- Counting `t < N` with `t % K = r`: one hit per full block of `K`, plus
one more when `r` falls inside the final partial block. -/
theorem countP_range_mod (K r N : ℕ) (hr : r < K) :
    (List.range N).countP (fun t => t % K == r) =
      N / K + (if r < N % K then 1 else 0) := by
  have hK : 0 < K := by omega
  induction N with
  | zero => simp
  | succ N ih =>
    rw [List.range_succ, List.countP_append, ih]
    have hsing : (List.countP (fun t => t % K == r) [N]) =
        if N % K = r then 1 else 0 := by
      simp [List.countP_cons, beq_iff_eq]
    rw [hsing]
    have hmod : N % K < K := Nat.mod_lt _ hK
    rcases Nat.lt_or_ge (N % K + 1) K with hcase | hcase
    · have e1 : (N + 1) % K = N % K + 1 := by
        conv_lhs => rw [← Nat.div_add_mod N K]
        rw [Nat.add_assoc, Nat.mul_add_mod]
        exact Nat.mod_eq_of_lt hcase
      have e2 : (N + 1) / K = N / K := by
        conv_lhs => rw [← Nat.div_add_mod N K]
        rw [Nat.add_assoc, Nat.mul_add_div hK, Nat.div_eq_of_lt hcase,
          Nat.add_zero]
      rw [e1, e2]
      split_ifs <;> omega
    · have hEq : N % K + 1 = K := by omega
      have e1 : (N + 1) % K = 0 := by
        conv_lhs => rw [← Nat.div_add_mod N K]
        rw [Nat.add_assoc, hEq, ← Nat.mul_succ, Nat.mul_mod_right]
      have e2 : (N + 1) / K = N / K + 1 := by
        conv_lhs => rw [← Nat.div_add_mod N K]
        rw [Nat.add_assoc, hEq, ← Nat.mul_succ,
          Nat.mul_div_cancel_left _ hK]
      rw [e1, e2]
      split_ifs <;> omega

/-- `⌈N / K⌉` as `(N + (K - 1)) / K`, related to `⌊N / K⌋`. -/
theorem add_pred_div (K N : ℕ) (hK : 0 < K) :
    (N + (K - 1)) / K = N / K + (if N % K = 0 then 0 else 1) := by
  have hdm := Nat.div_add_mod N K
  rcases Nat.eq_zero_or_pos (N % K) with h | h
  · have hN : K * (N / K) + (K - 1) = N + (K - 1) := by omega
    calc (N + (K - 1)) / K = (K * (N / K) + (K - 1)) / K := by rw [hN]
      _ = N / K + (K - 1) / K := Nat.mul_add_div hK _ _
      _ = N / K + 0 := by rw [Nat.div_eq_of_lt (show K - 1 < K by omega)]
      _ = N / K + (if N % K = 0 then 0 else 1) := by rw [if_pos h]
  · have hmod : N % K < K := Nat.mod_lt _ hK
    have hN : K * (N / K) + (N % K + (K - 1)) = N + (K - 1) := by omega
    have hone : (N % K + (K - 1)) / K = 1 := by
      apply Nat.div_eq_of_lt_le <;> omega
    calc (N + (K - 1)) / K = (K * (N / K) + (N % K + (K - 1))) / K := by
          rw [hN]
      _ = N / K + (N % K + (K - 1)) / K := Nat.mul_add_div hK _ _
      _ = N / K + 1 := by rw [hone]
      _ = N / K + (if N % K = 0 then 0 else 1) := by
          rw [if_neg (by omega)]

/-- Shifting the counted congruence: `(a + t) % K = j` iff
`t % K = (j + K - a % K) % K`. -/
theorem add_mod_eq_iff (a t K j : ℕ) (hK : 0 < K) (hj : j < K) :
    (a + t) % K = j ↔ t % K = (j + K - a % K) % K := by
  have haK : a % K < K := Nat.mod_lt _ hK
  have hshift : (a + (j + K - a % K)) % K = j := by
    have hX := Nat.div_add_mod a K
    have hsplit : a + (j + K - a % K) = K * (a / K) + (K + j) := by omega
    rw [hsplit, Nat.mul_add_mod, Nat.add_comm K j, Nat.add_mod_right]
    exact Nat.mod_eq_of_lt hj
  constructor
  · intro h
    have h1 : (a + t) % K = (a + (j + K - a % K)) % K := by rw [h, hshift]
    have h2 : t ≡ (j + K - a % K) [MOD K] :=
      Nat.ModEq.add_left_cancel' a h1
    exact h2
  · intro h
    have h2 : (a + t) % K = (a + (j + K - a % K)) % K :=
      Nat.ModEq.add_left a h
    rw [h2, hshift]

/-- `drawEffectsRibbon_` in NORMAL mode: the index advances by one, the
visible processors are drawn, and the extra off-screen refresh picks the
incremented index modulo the not-visible set. -/
theorem drawEffectsRibbon_normal (rects : List (ℤ × ℤ)) (bw : ℤ) (i : ℕ) :
    drawEffectsRibbon DrawMode.NORMAL rects bw i =
      (i + 1,
        (rects.enum.filter (fun q => visibleRect q.2 bw)).map Prod.fst,
        (notVisible rects bw).get?
          ((i + 1) % (notVisible rects bw).length)) := by
  simp [drawEffectsRibbon, notVisible]

/-- Unfolding `n` consecutive NORMAL-mode ribbon draws: the `t`-th extra
refresh is position `(i + 1 + t) % K` of the not-visible set. -/
theorem ribbonSelections_eq (rects : List (ℤ × ℤ)) (bw : ℤ) (N : ℕ) :
    ∀ i, ribbonSelections rects bw i N =
      (List.range N).map (fun t =>
        (notVisible rects bw).get?
          ((i + 1 + t) % (notVisible rects bw).length)) := by
  induction N with
  | zero => intro i; rfl
  | succ N ih =>
    intro i
    rw [ribbonSelections, drawEffectsRibbon_normal, ih (i + 1),
      List.range_succ_eq_map]
    simp only [List.map_cons, List.map_map, Nat.add_zero]
    refine congrArg₂ List.cons rfl ?_
    refine List.map_congr_left ?_
    intro t _
    simp only [Function.comp_apply]
    congr 2
    omega

/-- The not-visible positions are pairwise distinct (they are a sublist of
`range rects.length`). -/
theorem notVisible_nodup (rects : List (ℤ × ℤ)) (bw : ℤ) :
    (notVisible rects bw).Nodup := by
  unfold notVisible
  have h1 : List.Sublist
      ((rects.enum.filter (fun q => !visibleRect q.2 bw)).map Prod.fst)
      (rects.enum.map Prod.fst) := (List.filter_sublist _).map _
  rw [List.enum_map_fst] at h1
  exact List.Nodup.sublist h1 (List.nodup_range _)

/-- Positions of the not-visible set are determined by their `get?` values. -/
theorem notVisible_get?_inj (rects : List (ℤ × ℤ)) (bw : ℤ) {i j : ℕ}
    (hi : i < (notVisible rects bw).length)
    (h : (notVisible rects bw).get? i = (notVisible rects bw).get? j) :
    i = j := by
  apply List.getElem?_inj hi (notVisible_nodup rects bw)
  simpa [List.get?_eq_getElem?] using h

/-- C7: over `N` consecutive NORMAL-mode ribbon draws with a constant
not-visible set of size `K ≥ 1`, the round-robin index — incremented by one
per invocation and taken modulo `K` — selects each not-visible processor for
the extra off-screen refresh exactly `⌊N / K⌋` or `⌈N / K⌉` times. -/
theorem ribbon_round_robin (rects : List (ℤ × ℤ)) (bw : ℤ) (i0 N j : ℕ)
    (hj : j < (notVisible rects bw).length) :
    (ribbonSelections rects bw i0 N).count
          ((notVisible rects bw).get? j) =
        N / (notVisible rects bw).length ∨
      (ribbonSelections rects bw i0 N).count
          ((notVisible rects bw).get? j) =
        (N + ((notVisible rects bw).length - 1)) /
          (notVisible rects bw).length := by
  have hKpos : 0 < (notVisible rects bw).length := by omega
  rw [ribbonSelections_eq, List.count_eq_countP, List.countP_map]
  have hcong : ∀ t ∈ List.range N,
      ((fun x => x == (notVisible rects bw).get? j) ∘ fun t =>
          (notVisible rects bw).get?
            ((i0 + 1 + t) % (notVisible rects bw).length)) t = true ↔
        ((i0 + 1 + t) % (notVisible rects bw).length == j) = true := by
    intro t _
    have hm : (i0 + 1 + t) % (notVisible rects bw).length <
        (notVisible rects bw).length := Nat.mod_lt _ hKpos
    simp only [Function.comp_apply, beq_iff_eq]
    constructor
    · exact fun h => notVisible_get?_inj rects bw hm h
    · exact fun h => by rw [h]
  rw [List.countP_congr hcong]
  have hcong2 : ∀ t ∈ List.range N,
      ((i0 + 1 + t) % (notVisible rects bw).length == j) = true ↔
        (t % (notVisible rects bw).length ==
          (j + (notVisible rects bw).length -
            (i0 + 1) % (notVisible rects bw).length) %
            (notVisible rects bw).length) = true := by
    intro t _
    simp only [beq_iff_eq]
    exact add_mod_eq_iff (i0 + 1) t _ j hKpos hj
  rw [List.countP_congr hcong2,
    countP_range_mod _ _ _ (Nat.mod_lt _ hKpos),
    add_pred_div _ _ hKpos]
  by_cases hz : (j + (notVisible rects bw).length -
      (i0 + 1) % (notVisible rects bw).length) %
      (notVisible rects bw).length < N % (notVisible rects bw).length
  · right
    rw [if_pos hz, if_neg (by omega)]
  · left
    rw [if_neg hz, Nat.add_zero]

/-- Witness for C7: three ribbon canvases with the first and third
off-screen (`K = 2`), five NORMAL draws from index 0 — position 0 of the
not-visible set is refreshed 2 = ⌊5/2⌋ times. -/
theorem ribbon_round_robin_witness :
    0 < (notVisible [((-50 : ℤ), (-10 : ℤ)), (0, 50), (150, 200)] 100).length
      ∧
      ((ribbonSelections [((-50 : ℤ), (-10 : ℤ)), (0, 50), (150, 200)] 100 0
            5).count
          ((notVisible [((-50 : ℤ), (-10 : ℤ)), (0, 50), (150, 200)]
              100).get? 0) =
        5 / (notVisible [((-50 : ℤ), (-10 : ℤ)), (0, 50), (150, 200)]
            100).length ∨
      (ribbonSelections [((-50 : ℤ), (-10 : ℤ)), (0, 50), (150, 200)] 100 0
            5).count
          ((notVisible [((-50 : ℤ), (-10 : ℤ)), (0, 50), (150, 200)]
              100).get? 0) =
        (5 + ((notVisible [((-50 : ℤ), (-10 : ℤ)), (0, 50), (150, 200)]
            100).length - 1)) /
          (notVisible [((-50 : ℤ), (-10 : ℤ)), (0, 50), (150, 200)]
            100).length) :=
  ⟨by decide,
    ribbon_round_robin [((-50 : ℤ), (-10 : ℤ)), (0, 50), (150, 200)] 100 0 5
      0 (by decide)⟩

end Camera
